import Mathlib

/-!
Verification of `webhook2notion` (`src/app.py`): a single-endpoint web service
that creates a row in a Notion database and populates it in a background task.

The Python source is shallowly embedded below:
* JSON-decoded Python values become the inductive `JsonVal` (a JSON number is
  modelled as an integer, which covers every value the claims touch);
* functions that read the environment or call the Notion client take an
  explicit `Env` / `Store` / `TaskOracle` argument describing those
  collaborators' responses, and return the events they emit alongside their
  result, so "no side effect happened" is a statement about the event list;
* a raised `AppException` becomes an `Except.error`; an exception that no
  handler in `app.py` catches becomes the distinct `HandlerError.uncaught`.
-/

/-- The JSON-decodable Python values (`json` module output): `None`, `bool`,
numbers (modelled as integers), `str`, `list`, `dict`. -/
inductive JsonVal where
  | null : JsonVal
  | bool : Bool → JsonVal
  | num : Int → JsonVal
  | str : String → JsonVal
  | arr : List JsonVal → JsonVal
  | obj : List (String × JsonVal) → JsonVal

/-- Python `dict` lookup on an association list (keys of a decoded JSON dict
are unique; first match). Models `d[k]` / `d.get(k)` returning the stored
value, `none` when the key is absent. -/
def dget : List (String × JsonVal) → String → Option JsonVal
  | [], _ => none
  | (k, v) :: rest, key => if k = key then some v else dget rest key

/-- Python `d.get(k, None)` as used before an `is None` test: a stored JSON
`null` is Python `None`, so both an absent key and a `null` value give
`none`. -/
def pyGet (d : List (String × JsonVal)) (key : String) : Option JsonVal :=
  match dget d key with
  | some JsonVal.null => none
  | o => o

/-- Python `d[k] = v` on a dict: replace the value of an existing key in
place, otherwise append the new pair. -/
def dictSet : List (String × JsonVal) → String → JsonVal → List (String × JsonVal)
  | [], k, v => [(k, v)]
  | (k', v') :: rest, k, v =>
    if k' = k then (k, v) :: rest else (k', v') :: dictSet rest k v

mutual

/-- Python `repr` of a JSON-decoded value, as interpolated into the soft-error
strings by the f-strings in `parse_add_db_row_request` (strings are rendered
in CPython's default single-quote style; escaping of quotes inside strings is
not modelled, no claim depends on it). -/
def pyRepr : JsonVal → String
  | JsonVal.null => "None"
  | JsonVal.bool true => "True"
  | JsonVal.bool false => "False"
  | JsonVal.num n => toString n
  | JsonVal.str s => "'" ++ s ++ "'"
  | JsonVal.arr l => "[" ++ pyReprSeq l ++ "]"
  | JsonVal.obj kvs => "\x7b" ++ pyReprObj kvs ++ "\x7d"

/-- Comma-separated `repr` of a Python list's elements. -/
def pyReprSeq : List JsonVal → String
  | [] => ""
  | [v] => pyRepr v
  | v :: vs => pyRepr v ++ ", " ++ pyReprSeq vs

/-- Comma-separated `repr` of a Python dict's entries. -/
def pyReprObj : List (String × JsonVal) → String
  | [] => ""
  | [(k, v)] => "'" ++ k ++ "': " ++ pyRepr v
  | (k, v) :: kvs => "'" ++ k ++ "': " ++ pyRepr v ++ ", " ++ pyReprObj kvs

end

/-- `NotionPageProperty` (app.py:18-20). The `NamedTuple` annotations say
`str`, but Python does not enforce them: the fields hold whatever JSON values
the request supplied, so they are `JsonVal` here. -/
structure NotionPageProperty where
  name : JsonVal
  value : JsonVal

/-- One iteration of the property-parsing loop (app.py:76-95): an element that
is not a dict, or whose `name` or `value` key is absent or `None`, yields a
soft-error string; otherwise a `NotionPageProperty`. -/
def parse_prop_elem (prop : JsonVal) : Except String NotionPageProperty :=
  match prop with
  | JsonVal.obj kvs =>
    match pyGet kvs "name", pyGet kvs "value" with
    | some prop_name, some prop_value => Except.ok ⟨prop_name, prop_value⟩
    | _, _ =>
      Except.error
        ("Could not set property `" ++ pyRepr prop ++
          "`, because `name` or `value` key is missing.")
  | _ =>
    Except.error
      ("Could not set property `" ++ pyRepr prop ++
        "`, because it is not a dictionary.")

/-- The property-parsing loop of `parse_add_db_row_request` (app.py:75-95):
accumulates parsed properties and soft errors, both in input order. -/
def parse_prop_list : List JsonVal → List NotionPageProperty × List String
  | [] => ([], [])
  | p :: ps =>
    match parse_prop_elem p with
    | Except.ok d =>
      let (props, errs) := parse_prop_list ps
      (d :: props, errs)
    | Except.error e =>
      let (props, errs) := parse_prop_list ps
      (props, e :: errs)

/-- The whole property-handling portion of `parse_add_db_row_request`
(app.py:66-95): a non-list `properties` value yields one soft error and an
empty property list; a list is parsed element by element. Never fatal. -/
def parse_properties (property_dicts : JsonVal) : List NotionPageProperty × List String :=
  match property_dicts with
  | JsonVal.arr l => parse_prop_list l
  | v =>
    ([],
      ["Could not set properties `" ++ pyRepr v ++
        "`, because it is not a list."])

/-- `AppException` (app.py:179-193): message, HTTP status code (class default
400, overridable in `__init__`), optional payload dict. -/
structure AppException where
  message : String
  status_code : Nat
  payload : Option (List (String × JsonVal))

/-- `AppException.__init__` (app.py:182-187): the class attribute
`status_code = 400` stands unless a status code is passed. -/
def AppException.init (message : String) (status_code : Option Nat)
    (payload : Option (List (String × JsonVal))) : AppException :=
  ⟨message, status_code.getD 400, payload⟩

/-- `AppException.to_dict` (app.py:189-193): start from the payload (or an
empty dict) and set the `status` and `error` keys. -/
def AppException.to_dict (e : AppException) : List (String × JsonVal) :=
  dictSet (dictSet (e.payload.getD []) "status" (JsonVal.str "failure"))
    "error" (JsonVal.str e.message)

/-- A Sanic HTTP response: status code and JSON body (a dict). -/
structure HttpResponse where
  status : Nat
  body : List (String × JsonVal)

/-- `sanic.response.json(body)`: a JSON response with the default status
code 200. -/
def response_json (body : List (String × JsonVal)) : HttpResponse :=
  ⟨200, body⟩

/-- `handle_app_exception` (app.py:196-200): serialize `error.to_dict()` as
JSON and overwrite the response status with `error.status_code`. -/
def handle_app_exception (error : AppException) : HttpResponse :=
  ⟨error.status_code, (response_json error.to_dict).body⟩

/-- How the synchronous phase can fail: with a raised `AppException` (caught
by `handle_app_exception`), or with an exception of any other class, which no
handler in `app.py` catches (Sanic then produces its generic 500 error page,
not the structured failure body). -/
inductive HandlerError where
  | appExc : AppException → HandlerError
  | uncaught : String → HandlerError

/-- Whether a synchronous failure is the structured `AppException`. -/
def HandlerError.isApp : HandlerError → Bool
  | HandlerError.appExc _ => true
  | HandlerError.uncaught _ => false

/-- Process environment (app.py reads `SECRET` and `TOKEN` via
`os.environ.get`, which yields `None` when unset). -/
structure Env where
  secret : Option String
  token : Option String

/-- An inbound Sanic request: the `secret` query parameter
(`request.args.get('secret', None)`) and the decoded JSON body
(`request.json`; `Except.error ()` models the `InvalidUsage` raised for a
body that is not JSON). -/
structure Request where
  argsSecret : Option String
  jsonBody : Except Unit JsonVal

/-- A Notion row handle: opaque except for its stable browseable URL
(`row.get_browseable_url()`). -/
structure Row where
  browseableUrl : String

/-- A resolved collection view: `db.collection.add_row()` returns the new row
(the client's `add_row` does not fail per its interface). -/
structure Collection where
  newRow : Row

/-- The external Notion service as observed by the synchronous phase:
`login tok` is `NotionClient(token_v2=tok)` (an `Except.error` is the
`HTTPError` the code catches), `getCollection u` is
`get_collection_view(u)` followed by the `db.parent.title` / `add_row`
accesses (an `Except.error` is an exception raised by the client for an
unresolvable target, which app.py does not catch). -/
structure Store where
  login : String → Except String Unit
  getCollection : JsonVal → Except String Collection

/-- Externally visible interactions of the synchronous phase, in order. -/
inductive HandlerEvent where
  | login : HandlerEvent
  | createRow : HandlerEvent
  | scheduleTask : JsonVal → List NotionPageProperty → HandlerEvent

/-- `check_secret` (app.py:23-40): first the configured secret must exist,
then the request's `secret` query parameter must exist and match. Pure: it
only inspects its inputs. -/
def check_secret (correct_secret : Option String) (request_secret : Option String) :
    Except AppException Unit :=
  match correct_secret with
  | none =>
    Except.error (AppException.init
      "Please configure password using the environment variable `SECRET`" none none)
  | some cs =>
    match request_secret with
    | none =>
      Except.error (AppException.init
        ("Auth Failure: Please include app password using the " ++
          "`?secret=XXX` url query parameter.") none none)
    | some rs =>
      if rs ≠ cs then
        Except.error (AppException.init
          ("Auth Failure: The submitted secret query parameter `" ++ rs ++
            "` does not match the configured secret.") none none)
      else
        Except.ok ()

/-- `parse_add_db_row_request` (app.py:43-97). A non-JSON body raises the
`AppException` of line 48; a JSON body that is not a dict makes
`json_data.keys()` (line 54) raise an uncaught `AttributeError`; a missing
`db_url` key raises the `AppException` of line 56. Then `db_url`, `body` and
`properties` are read with their defaults and the properties parsed. -/
def parse_add_db_row_request (request : Request) :
    Except HandlerError (JsonVal × JsonVal × List NotionPageProperty × List String) :=
  match request.jsonBody with
  | Except.error () =>
    Except.error (HandlerError.appExc
      (AppException.init "Body was not sent in JSON format" none none))
  | Except.ok json_data =>
    match json_data with
    | JsonVal.obj kvs =>
      if (dget kvs "db_url").isNone then
        Except.error (HandlerError.appExc
          (AppException.init "JSON is missing required parameters: db_url" none none))
      else
        let db_url := (dget kvs "db_url").getD JsonVal.null
        let body := (dget kvs "body").getD (JsonVal.str "")
        let property_dicts := (dget kvs "properties").getD (JsonVal.arr [])
        let (properties, errors) := parse_properties property_dicts
        Except.ok (db_url, body, properties, errors)
    | v =>
      Except.error (HandlerError.uncaught
        ("AttributeError: '" ++ pyRepr v ++ "' object has no attribute 'keys'"))

/-- `notion_login` (app.py:100-115): a missing `TOKEN` raises an
`AppException` before any client call; otherwise `NotionClient` is
constructed (the `login` event), and an `HTTPError` from it is wrapped in an
`AppException`. -/
def notion_login (env : Env) (store : Store) :
    Except HandlerError Unit × List HandlerEvent :=
  match env.token with
  | none =>
    (Except.error (HandlerError.appExc (AppException.init
      ("Could not login to notion: Token was not set " ++
        "in environment variable `TOKEN`") none none)), [])
  | some notion_token =>
    match store.login notion_token with
    | Except.error e =>
      (Except.error (HandlerError.appExc (AppException.init
        ("Could not login to notion: " ++ e) none none)), [HandlerEvent.login])
    | Except.ok () => (Except.ok (), [HandlerEvent.login])

/-- `notion_add_db_row` (app.py:118-124): resolve the collection view and add
a row. Nothing here is wrapped in try/except, so a client failure propagates
as an uncaught exception. -/
def notion_add_db_row (store : Store) (db_url : JsonVal) :
    Except HandlerError Row × List HandlerEvent :=
  match store.getCollection db_url with
  | Except.error e => (Except.error (HandlerError.uncaught e), [])
  | Except.ok db => (Except.ok db.newRow, [HandlerEvent.createRow])

/-- `add_db_row_handler` (app.py:152-176): check the secret, parse the
request, log in, create the row, build the result dict (with an `errors` key
only when soft errors were collected), schedule the background task, and
return the 200 JSON response. -/
def add_db_row_handler (env : Env) (store : Store) (request : Request) :
    Except HandlerError HttpResponse × List HandlerEvent :=
  match check_secret env.secret request.argsSecret with
  | Except.error e => (Except.error (HandlerError.appExc e), [])
  | Except.ok () =>
    match parse_add_db_row_request request with
    | Except.error e => (Except.error e, [])
    | Except.ok (db_url, body, properties, errors) =>
      let lres := notion_login env store
      match lres.1 with
      | Except.error e => (Except.error e, lres.2)
      | Except.ok () =>
        let rres := notion_add_db_row store db_url
        match rres.1 with
        | Except.error e => (Except.error e, lres.2 ++ rres.2)
        | Except.ok new_row =>
          let result := [("status", JsonVal.str "background_processing"),
            ("new_row_url", JsonVal.str new_row.browseableUrl)]
          let result := if errors.length > 0 then
            result ++ [("errors", JsonVal.arr (errors.map JsonVal.str))]
          else result
          (Except.ok (response_json result),
            lres.2 ++ rres.2 ++ [HandlerEvent.scheduleTask body properties])

/-- The Python exception classes relevant to `notion_set_page_content`: the
`except (ValueError, AttributeError, TypeError)` clause of app.py:134 catches
the first three; any other class propagates. -/
inductive ExcKind where
  | valueError : ExcKind
  | attributeError : ExcKind
  | typeError : ExcKind
  | other : ExcKind

/-- An exception raised by a collaborator call in the background task. -/
structure PyError where
  kind : ExcKind
  msg : String

/-- Whether the per-property `except` clause (app.py:134) catches this
exception class. -/
def caughtByPropClause : ExcKind → Bool
  | ExcKind.valueError => true
  | ExcKind.attributeError => true
  | ExcKind.typeError => true
  | ExcKind.other => false

/-- A Notion content block, opaque to app.py except for the discriminant
printed in the progress log (`block_descriptor["type"].__name__`). -/
def Block := String

/-- The collaborators of the background task: `setProp n v` is
`page.set_property(n, v)` (`some e` when it raises `e`), `convert b` is
`md2notion`'s `convert(b)` output on the request body, `uploadBlock blk` is
`uploadBlock(blk, page, None)` (`some e` when it raises `e`). -/
structure TaskOracle where
  setProp : JsonVal → JsonVal → Option PyError
  convert : JsonVal → List Block
  uploadBlock : Block → Option PyError

/-- Observable steps of the background task, in order: the log lines it
prints and the collaborator calls it makes. -/
inductive TaskEvent where
  | started : String → TaskEvent
  | setPropStart : JsonVal → JsonVal → TaskEvent
  | setPropError : JsonVal → String → TaskEvent
  | progressLog : Nat → Nat → TaskEvent
  | uploadedBlock : Block → TaskEvent
  | finished : String → TaskEvent

/-- Whether an event is the attempt log line `Setting property ...`
(app.py:131), printed right before each `set_property` call. -/
def TaskEvent.isSetPropStart : TaskEvent → Bool
  | TaskEvent.setPropStart _ _ => true
  | _ => false

/-- Whether an event belongs to the property-assignment phase. -/
def TaskEvent.isPropPhase : TaskEvent → Bool
  | TaskEvent.setPropStart _ _ => true
  | TaskEvent.setPropError _ _ => true
  | _ => false

/-- The property loop of `notion_set_page_content` (app.py:130-137): for each
property, log the attempt and call `set_property`; a `ValueError`,
`AttributeError` or `TypeError` is caught and logged, any other exception
aborts the task (trace truncated, error returned). -/
def set_properties_loop (o : TaskOracle) :
    List NotionPageProperty → Except PyError Unit × List TaskEvent
  | [] => (Except.ok (), [])
  | prop :: rest =>
    let attempt := TaskEvent.setPropStart prop.name prop.value
    match o.setProp prop.name prop.value with
    | none =>
      let res := set_properties_loop o rest
      (res.1, attempt :: res.2)
    | some e =>
      if caughtByPropClause e.kind then
        let res := set_properties_loop o rest
        (res.1, attempt :: TaskEvent.setPropError prop.name e.msg :: res.2)
      else
        (Except.error e, [attempt])

/-- The upload loop of `notion_set_page_content` (app.py:141-147): for the
block at (0-based) index `idx`, the progress `(idx+1)/total` is computed and
printed, then `uploadBlock` is called; an exception from it is not caught and
aborts the task. -/
def upload_blocks_loop (o : TaskOracle) (total : Nat) :
    Nat → List Block → Except PyError Unit × List TaskEvent
  | _, [] => (Except.ok (), [])
  | idx, block_descriptor :: rest =>
    let progress := TaskEvent.progressLog (idx + 1) total
    match o.uploadBlock block_descriptor with
    | some e => (Except.error e, [progress])
    | none =>
      let res := upload_blocks_loop o total (idx + 1) rest
      (res.1, progress :: TaskEvent.uploadedBlock block_descriptor :: res.2)

/-- The conversion-and-upload phase of `notion_set_page_content`
(app.py:139-147): convert the body, then run the upload loop over the
converter's output from index 0, with `total = len(notion_blocks)`. -/
def upload_phase (o : TaskOracle) (body : JsonVal) :
    Except PyError Unit × List TaskEvent :=
  let notion_blocks := o.convert body
  upload_blocks_loop o notion_blocks.length 0 notion_blocks

/-- `notion_set_page_content` (app.py:127-149): log the start, run the
property loop (aborting only on an uncaught exception class), then the
conversion-and-upload phase, and log completion on success. -/
def notion_set_page_content (o : TaskOracle) (page : Row) (body : JsonVal)
    (properties : List NotionPageProperty) : Except PyError Unit × List TaskEvent :=
  let hdr := TaskEvent.started page.browseableUrl
  let pres := set_properties_loop o properties
  match pres.1 with
  | Except.error e => (Except.error e, hdr :: pres.2)
  | Except.ok () =>
    let ures := upload_phase o body
    match ures.1 with
    | Except.error e => (Except.error e, hdr :: (pres.2 ++ ures.2))
    | Except.ok () =>
      (Except.ok (), hdr :: (pres.2 ++ ures.2 ++ [TaskEvent.finished page.browseableUrl]))

/-- Stated from the spec's words, for comparison with the code: "Upload
blocks one at a time, in order, to the row; after each, compute and log
fractional progress = (index+1)/total" — i.e. the trace of the upload phase
would put each progress log AFTER the upload it measures. -/
def progressLoggedAfterEachUpload (blocks : List Block) (trace : List TaskEvent) : Prop :=
  trace = (blocks.enum.map (fun ib =>
    [TaskEvent.uploadedBlock ib.2, TaskEvent.progressLog (ib.1 + 1) blocks.length])).flatten

/-- Whether an event belongs to the conversion-and-upload phase (a progress
log line — the only place the code divides by the block count — or an upload
call). -/
def TaskEvent.isUploadPhase : TaskEvent → Bool
  | TaskEvent.progressLog _ _ => true
  | TaskEvent.uploadedBlock _ => true
  | _ => false

/-- The soft error (if any) that the parsing loop emits for one element of
the `properties` list. -/
def softError (e : JsonVal) : Option String :=
  match parse_prop_elem e with
  | Except.error s => some s
  | Except.ok _ => none

/-- A store whose login and collection resolution both succeed, for concrete
evaluations. -/
def storeOk : Store :=
  ⟨fun _ => Except.ok (), fun _ => Except.ok ⟨⟨"https://www.notion.so/r0w"⟩⟩⟩

/-- A store whose collection resolution raises (an unresolvable target
collection), for concrete evaluations. -/
def storeNoCollection : Store :=
  ⟨fun _ => Except.ok (), fun _ => Except.error "Invalid collection view URL"⟩

/-- A fully configured process environment, for concrete evaluations. -/
def envOk : Env := ⟨some "hunter2", some "t0ken"⟩

/-- A well-formed request with the matching secret, for concrete
evaluations. -/
def reqOk : Request :=
  ⟨some "hunter2",
    Except.ok (JsonVal.obj [("db_url", JsonVal.str "https://www.notion.so/db")])⟩

/-- A task oracle whose collaborators all succeed and whose converter yields
one block, for concrete evaluations. -/
def oracleOneBlock : TaskOracle :=
  ⟨fun _ _ => none, fun _ => ["TextBlock"], fun _ => none⟩

/-- A task oracle whose converter yields no blocks, for concrete
evaluations. -/
def oracleNoBlocks : TaskOracle :=
  ⟨fun _ _ => none, fun _ => [], fun _ => none⟩

/-- A task oracle where every `set_property` call raises a `TypeError` (a
class the per-property clause catches), for concrete evaluations. -/
def oracleAllPropsFail : TaskOracle :=
  ⟨fun _ _ => some ⟨ExcKind.typeError, "Content type not supported"⟩,
    fun _ => ["TextBlock"], fun _ => none⟩

/-- A concrete row handle, for concrete evaluations. -/
def pageW : Row := ⟨"https://www.notion.so/r0w"⟩

/-- Two well-formed concrete properties, for concrete evaluations. -/
def propsW : List NotionPageProperty :=
  [⟨JsonVal.str "a", JsonVal.str "1"⟩, ⟨JsonVal.str "b", JsonVal.str "2"⟩]

/-- A concrete markdown body, for concrete evaluations. -/
def bodyW : JsonVal := JsonVal.str "# hi"

/-! ### Dict lemmas -/

/-- Setting a key makes it present with the new value. -/
theorem dget_dictSet_self (d : List (String × JsonVal)) (k : String) (v : JsonVal) :
    dget (dictSet d k v) k = some v := by
  induction d with
  | nil => simp [dictSet, dget]
  | cons kv rest ih =>
    obtain ⟨k', v'⟩ := kv
    by_cases h : k' = k
    · simp [dictSet, h, dget]
    · simp [dictSet, h, dget, ih]

/-- Setting one key leaves the other keys unchanged. -/
theorem dget_dictSet_ne (d : List (String × JsonVal)) (k key : String) (v : JsonVal)
    (h : key ≠ k) : dget (dictSet d k v) key = dget d key := by
  induction d with
  | nil => simp [dictSet, dget, Ne.symm h]
  | cons kv rest ih =>
    obtain ⟨k', v'⟩ := kv
    by_cases h2 : k' = k
    · subst h2
      simp [dictSet, dget, Ne.symm h]
    · by_cases h3 : k' = key
      · simp [dictSet, h2, dget, h3, h]
      · simp [dictSet, h2, dget, h3, ih]

/-! ### Property-parser lemmas -/

/-- A dict element with non-null `name` and `value` parses to exactly that
descriptor. -/
theorem parse_prop_elem_obj_ok (kvs : List (String × JsonVal)) (n v : JsonVal)
    (hn : pyGet kvs "name" = some n) (hv : pyGet kvs "value" = some v) :
    parse_prop_elem (JsonVal.obj kvs) = Except.ok ⟨n, v⟩ := by
  simp [parse_prop_elem, hn, hv]

/-- A dict element is rejected exactly when `name` or `value` is absent or
null. -/
theorem parse_prop_elem_obj_error_iff (kvs : List (String × JsonVal)) :
    (∃ s, parse_prop_elem (JsonVal.obj kvs) = Except.error s) ↔
      (pyGet kvs "name" = none ∨ pyGet kvs "value" = none) := by
  cases hn : pyGet kvs "name" with
  | none => simp [parse_prop_elem, hn]
  | some n =>
    cases hv : pyGet kvs "value" with
    | none => simp [parse_prop_elem, hn, hv]
    | some v => simp [parse_prop_elem, hn, hv]

/-- A non-dict element is rejected with a soft error. -/
theorem parse_prop_elem_not_dict (e : JsonVal) (h : ∀ kvs, e ≠ JsonVal.obj kvs) :
    ∃ s, parse_prop_elem e = Except.error s := by
  cases e with
  | obj kvs => exact absurd rfl (h kvs)
  | null => exact ⟨_, rfl⟩
  | bool b => exact ⟨_, rfl⟩
  | num n => exact ⟨_, rfl⟩
  | str s => exact ⟨_, rfl⟩
  | arr l => exact ⟨_, rfl⟩

/-- The parsing loop is element-wise: the descriptors are the valid elements'
parses and the soft errors the invalid elements' messages, both in input
order. -/
theorem parse_prop_list_eq (l : List JsonVal) :
    parse_prop_list l =
      (l.filterMap (fun e => (parse_prop_elem e).toOption), l.filterMap softError) := by
  induction l with
  | nil => rfl
  | cons p ps ih =>
    cases h : parse_prop_elem p with
    | ok d =>
      simp [parse_prop_list, h, ih, softError, Except.toOption, List.filterMap_cons]
    | error s =>
      simp [parse_prop_list, h, ih, softError, Except.toOption, List.filterMap_cons]

/-! ### Claim C4 — Request Validator -/

/-- C4: `check_secret` checks in order: a missing configured secret fails
with the configuration error; with a secret configured, a missing request
secret fails with the authentication-missing error and a mismatched one with
the authentication-mismatch error; it short-circuits on the first failure
(the configuration error wins for every request secret), is pure (a function
of its two inputs, returning events nowhere), and succeeds exactly when the
supplied secret equals the configured one. -/
theorem c4_request_validator_order :
    (∀ rs, check_secret none rs = Except.error (AppException.init
      "Please configure password using the environment variable `SECRET`" none none)) ∧
    (∀ cs, check_secret (some cs) none = Except.error (AppException.init
      ("Auth Failure: Please include app password using the " ++
        "`?secret=XXX` url query parameter.") none none)) ∧
    (∀ cs rs, rs ≠ cs → check_secret (some cs) (some rs) = Except.error (AppException.init
      ("Auth Failure: The submitted secret query parameter `" ++ rs ++
        "` does not match the configured secret.") none none)) ∧
    (∀ cso rso, check_secret cso rso = Except.ok () ↔ ∃ s, cso = some s ∧ rso = some s) := by
  refine ⟨fun rs => rfl, fun cs => rfl, fun cs rs h => by simp [check_secret, h],
    fun cso rso => ?_⟩
  cases cso with
  | none => simp [check_secret]
  | some cs =>
    cases rso with
    | none => simp [check_secret]
    | some rs =>
      by_cases h : rs = cs
      · subst h
        simp [check_secret]
      · simp [check_secret, h]

/-- Witness for C4 at concrete secrets: a mismatched request secret is
rejected with the authentication error. -/
theorem c4_request_validator_order_witness :
    check_secret (some "hunter2") (some "wrong") = Except.error (AppException.init
      ("Auth Failure: The submitted secret query parameter `" ++ "wrong" ++
        "` does not match the configured secret.") none none) :=
  c4_request_validator_order.2.2.1 "hunter2" "wrong" (by decide)

/-! ### Claim C5 — non-list `properties` -/

/-- C5: for every `properties` value that is not a list, the parser returns
an empty descriptor sequence and exactly one soft error; it does not fail
fatally (`parse_properties` is a total function into its result pair, raising
nothing). -/
theorem c5_non_list_properties (v : JsonVal) (h : ∀ l, v ≠ JsonVal.arr l) :
    (parse_properties v).1 = [] ∧ (parse_properties v).2.length = 1 := by
  cases v with
  | arr l => exact absurd rfl (h l)
  | null => exact ⟨rfl, rfl⟩
  | bool b => exact ⟨rfl, rfl⟩
  | num n => exact ⟨rfl, rfl⟩
  | str s => exact ⟨rfl, rfl⟩
  | obj kvs => exact ⟨rfl, rfl⟩

/-- Witness for C5: the non-list value `"x"` yields no descriptors and one
soft error. -/
theorem c5_non_list_properties_witness :
    (parse_properties (JsonVal.str "x")).1 = [] ∧
      (parse_properties (JsonVal.str "x")).2.length = 1 :=
  c5_non_list_properties (JsonVal.str "x") (fun _ h => JsonVal.noConfusion h)

/-! ### Claim C6 — element-wise parsing of a `properties` list -/

/-- C6: over any list input, the parser is element-wise and order-preserving:
the descriptors are exactly the valid elements' parses and the soft errors
exactly the invalid elements' messages, each invalid element contributing
exactly one error (an element is invalid when it is not a dict, or when
`name` or `value` is absent or null). -/
theorem c6_prop_list_soft_errors :
    (∀ l : List JsonVal, parse_prop_list l =
      (l.filterMap (fun e => (parse_prop_elem e).toOption), l.filterMap softError)) ∧
    (∀ e : JsonVal, (softError e).isSome ↔ ¬∃ d, parse_prop_elem e = Except.ok d) ∧
    (∀ kvs, (∃ s, parse_prop_elem (JsonVal.obj kvs) = Except.error s) ↔
      (pyGet kvs "name" = none ∨ pyGet kvs "value" = none)) ∧
    (∀ e : JsonVal, (∀ kvs, e ≠ JsonVal.obj kvs) → ∃ s, parse_prop_elem e = Except.error s) := by
  refine ⟨parse_prop_list_eq, ?_, parse_prop_elem_obj_error_iff, parse_prop_elem_not_dict⟩
  intro e
  cases h : parse_prop_elem e with
  | ok d => simp [softError, h]
  | error s => simp [softError, h]

/-- Witness for C6 on a concrete mixed list (valid element, non-dict element,
element missing `value`) and for its skip rule on the non-dict element. -/
theorem c6_prop_list_soft_errors_witness :
    (parse_prop_list [JsonVal.obj [("name", JsonVal.str "a"), ("value", JsonVal.str "1")],
        JsonVal.num 7, JsonVal.obj [("name", JsonVal.str "b")]] =
      ([JsonVal.obj [("name", JsonVal.str "a"), ("value", JsonVal.str "1")],
        JsonVal.num 7, JsonVal.obj [("name", JsonVal.str "b")]].filterMap
          (fun e => (parse_prop_elem e).toOption),
       [JsonVal.obj [("name", JsonVal.str "a"), ("value", JsonVal.str "1")],
        JsonVal.num 7, JsonVal.obj [("name", JsonVal.str "b")]].filterMap softError)) ∧
    (∃ s, parse_prop_elem (JsonVal.num 7) = Except.error s) :=
  ⟨c6_prop_list_soft_errors.1 _,
    c6_prop_list_soft_errors.2.2.2 (JsonVal.num 7) (fun _ h => JsonVal.noConfusion h)⟩

/-! ### Claim C10 — falsy values are accepted -/

/-- C10: a dict element whose `name` and `value` keys map to non-null values
is accepted as exactly that descriptor — truthiness of the values plays no
role — and a dict element is rejected precisely when one of the keys is
absent or explicitly null. -/
theorem c10_falsy_values_accepted :
    (∀ kvs n v, pyGet kvs "name" = some n → pyGet kvs "value" = some v →
      parse_prop_elem (JsonVal.obj kvs) = Except.ok ⟨n, v⟩) ∧
    (∀ kvs, (∃ s, parse_prop_elem (JsonVal.obj kvs) = Except.error s) ↔
      (pyGet kvs "name" = none ∨ pyGet kvs "value" = none)) :=
  ⟨parse_prop_elem_obj_ok, parse_prop_elem_obj_error_iff⟩

/-- Witness for C10: the falsy values `""`, `0`, `False` and `[]` are all
accepted. -/
theorem c10_falsy_values_accepted_witness :
    parse_prop_elem (JsonVal.obj [("name", JsonVal.str ""), ("value", JsonVal.num 0)]) =
      Except.ok ⟨JsonVal.str "", JsonVal.num 0⟩ ∧
    parse_prop_elem (JsonVal.obj [("name", JsonVal.bool false), ("value", JsonVal.arr [])]) =
      Except.ok ⟨JsonVal.bool false, JsonVal.arr []⟩ :=
  ⟨c10_falsy_values_accepted.1 _ _ _ rfl rfl, c10_falsy_values_accepted.1 _ _ _ rfl rfl⟩

/-! ### Background-task lemmas -/

/-- When every failure among the given properties is of a caught class, the
property loop finishes without aborting and attempts every property, in
order. -/
theorem set_properties_loop_all_caught (o : TaskOracle) (props : List NotionPageProperty)
    (h : ∀ p ∈ props, ∀ e, o.setProp p.name p.value = some e →
      caughtByPropClause e.kind = true) :
    (set_properties_loop o props).1 = Except.ok () ∧
    (set_properties_loop o props).2.filter TaskEvent.isSetPropStart =
      props.map (fun p => TaskEvent.setPropStart p.name p.value) := by
  induction props with
  | nil => exact ⟨rfl, rfl⟩
  | cons p ps ih =>
    have hrest := fun q hq => h q (List.mem_cons_of_mem _ hq)
    obtain ⟨ih1, ih2⟩ := ih hrest
    cases hsp : o.setProp p.name p.value with
    | none =>
      simp [set_properties_loop, hsp, ih1, ih2, TaskEvent.isSetPropStart, List.filter_cons]
    | some e =>
      have hc := h p (List.mem_cons_self _ _) e hsp
      simp [set_properties_loop, hsp, hc, ih1, ih2, TaskEvent.isSetPropStart, List.filter_cons]

/-- Every event the property loop emits belongs to the property phase. -/
theorem set_properties_loop_events_prop_phase (o : TaskOracle)
    (props : List NotionPageProperty) :
    (set_properties_loop o props).2.all TaskEvent.isPropPhase = true := by
  induction props with
  | nil => rfl
  | cons p ps ih =>
    cases hsp : o.setProp p.name p.value with
    | none => simp [set_properties_loop, hsp, TaskEvent.isPropPhase, ih]
    | some e =>
      by_cases hc : caughtByPropClause e.kind
      · simp [set_properties_loop, hsp, hc, TaskEvent.isPropPhase, ih]
      · simp [set_properties_loop, hsp, hc, TaskEvent.isPropPhase]

/-- When every failure among the given properties is of a caught class, the
property loop's trace is, per property in order: the attempt log line, then —
only when that property's `set_property` raised — its individual error log
line. -/
theorem set_properties_loop_trace_all_caught (o : TaskOracle)
    (props : List NotionPageProperty)
    (h : ∀ p ∈ props, ∀ e, o.setProp p.name p.value = some e →
      caughtByPropClause e.kind = true) :
    (set_properties_loop o props).2 = (props.map (fun p =>
      TaskEvent.setPropStart p.name p.value ::
        (match o.setProp p.name p.value with
         | none => []
         | some e => [TaskEvent.setPropError p.name e.msg]))).flatten := by
  induction props with
  | nil => rfl
  | cons p ps ih =>
    have hrest := fun q hq => h q (List.mem_cons_of_mem _ hq)
    cases hsp : o.setProp p.name p.value with
    | none => simp [set_properties_loop, hsp, ih hrest]
    | some e =>
      have hc := h p (List.mem_cons_self _ _) e hsp
      simp [set_properties_loop, hsp, hc, ih hrest]

/-- A property-phase event is not an upload-phase event. -/
theorem prop_phase_not_upload (ev : TaskEvent) (h : ev.isPropPhase = true) :
    ev.isUploadPhase = false := by
  cases ev <;> simp_all [TaskEvent.isPropPhase, TaskEvent.isUploadPhase]

/-- When no upload raises, the upload loop from any start index succeeds and
its trace is, per block in order: the progress log for `(index+1)` out of
`total`, then the upload. -/
theorem upload_blocks_loop_ok (o : TaskOracle) (total : Nat) (blocks : List Block)
    (h : ∀ b ∈ blocks, o.uploadBlock b = none) :
    ∀ start, upload_blocks_loop o total start blocks =
      (Except.ok (), ((blocks.enumFrom start).map (fun ib =>
        [TaskEvent.progressLog (ib.1 + 1) total, TaskEvent.uploadedBlock ib.2])).flatten) := by
  induction blocks with
  | nil => intro start; rfl
  | cons b bs ih =>
    intro start
    have hb := h b (List.mem_cons_self _ _)
    have hrest := fun q hq => h q (List.mem_cons_of_mem _ hq)
    simp [upload_blocks_loop, hb, ih hrest (start + 1), List.enumFrom]

/-! ### Claim C2 — best-effort property assignment -/

/-- C2: when every per-property failure is of a caught class (`ValueError`,
`AttributeError`, `TypeError` — type mismatch or invalid value), the property
loop catches each failure individually, still attempts every property (the
attempt log lines are exactly one per property, in order), and the task still
proceeds to the block-upload phase: the task's trace is the property-phase
trace followed by the upload-phase trace, so no caught per-property failure
aborts the background task. -/
theorem c2_best_effort_properties (o : TaskOracle) (page : Row) (body : JsonVal)
    (properties : List NotionPageProperty)
    (h : ∀ p ∈ properties, ∀ e, o.setProp p.name p.value = some e →
      caughtByPropClause e.kind = true) :
    (set_properties_loop o properties).1 = Except.ok () ∧
    (set_properties_loop o properties).2.filter TaskEvent.isSetPropStart =
      properties.map (fun p => TaskEvent.setPropStart p.name p.value) ∧
    (set_properties_loop o properties).2 = (properties.map (fun p =>
      TaskEvent.setPropStart p.name p.value ::
        (match o.setProp p.name p.value with
         | none => []
         | some e => [TaskEvent.setPropError p.name e.msg]))).flatten ∧
    (notion_set_page_content o page body properties).1 = (upload_phase o body).1 ∧
    (notion_set_page_content o page body properties).2 =
      TaskEvent.started page.browseableUrl ::
        ((set_properties_loop o properties).2 ++ (upload_phase o body).2 ++
          (match (upload_phase o body).1 with
           | Except.ok () => [TaskEvent.finished page.browseableUrl]
           | Except.error _ => [])) := by
  obtain ⟨h1, h2⟩ := set_properties_loop_all_caught o properties h
  refine ⟨h1, h2, set_properties_loop_trace_all_caught o properties h, ?_, ?_⟩
  · cases hu : (upload_phase o body).1 with
    | ok u => cases u; simp [notion_set_page_content, h1, hu]
    | error e => simp [notion_set_page_content, h1, hu]
  · cases hu : (upload_phase o body).1 with
    | ok u => cases u; simp [notion_set_page_content, h1, hu]
    | error e => simp [notion_set_page_content, h1, hu]

/-- Witness for C2: with an oracle where every `set_property` call raises a
`TypeError`, both properties are still attempted and the upload phase still
runs. -/
theorem c2_best_effort_properties_witness :
    (set_properties_loop oracleAllPropsFail propsW).1 = Except.ok () ∧
    (set_properties_loop oracleAllPropsFail propsW).2.filter TaskEvent.isSetPropStart =
      propsW.map (fun p => TaskEvent.setPropStart p.name p.value) ∧
    (set_properties_loop oracleAllPropsFail propsW).2 = (propsW.map (fun p =>
      TaskEvent.setPropStart p.name p.value ::
        (match oracleAllPropsFail.setProp p.name p.value with
         | none => []
         | some e => [TaskEvent.setPropError p.name e.msg]))).flatten ∧
    (notion_set_page_content oracleAllPropsFail pageW bodyW propsW).1 =
      (upload_phase oracleAllPropsFail bodyW).1 ∧
    (notion_set_page_content oracleAllPropsFail pageW bodyW propsW).2 =
      TaskEvent.started pageW.browseableUrl ::
        ((set_properties_loop oracleAllPropsFail propsW).2 ++
          (upload_phase oracleAllPropsFail bodyW).2 ++
          (match (upload_phase oracleAllPropsFail bodyW).1 with
           | Except.ok () => [TaskEvent.finished pageW.browseableUrl]
           | Except.error _ => [])) :=
  c2_best_effort_properties oracleAllPropsFail pageW bodyW propsW (by
    intro p hp e he
    simp [oracleAllPropsFail] at he
    subst he
    rfl)

/-! ### Claim C8 — block upload order and progress logging -/

/-- C8 counterexample: the progress line is printed BEFORE each upload, not
after it. With one block and no failures the upload phase's trace is
`[progressLog 1 1, uploadedBlock]`, which refutes the claimed
upload-then-log ordering. -/
theorem c8_progress_counterexample :
    (upload_phase oracleOneBlock (JsonVal.str "x")).2 =
      [TaskEvent.progressLog 1 1, TaskEvent.uploadedBlock "TextBlock"] ∧
    ¬ progressLoggedAfterEachUpload (oracleOneBlock.convert (JsonVal.str "x"))
        (upload_phase oracleOneBlock (JsonVal.str "x")).2 := by
  refine ⟨rfl, ?_⟩
  intro hcontra
  simp [progressLoggedAfterEachUpload, upload_phase, upload_blocks_loop, oracleOneBlock,
    List.enum, List.enumFrom] at hcontra

/-- C8 (amended): for every block sequence produced by the converter, if no
upload raises then the upload phase uploads the blocks one at a time, each
exactly once, in the converter's output order, and BEFORE each upload (the
log line announces it) it computes and logs the fractional progress
`(index+1)/total` — the trace is, per block in order, the progress log for
`(index+1)` out of `total` followed by that block's upload. -/
theorem c8_amended_upload_order (o : TaskOracle) (body : JsonVal)
    (h : ∀ b ∈ o.convert body, o.uploadBlock b = none) :
    upload_phase o body =
      (Except.ok (), ((o.convert body).enum.map (fun ib =>
        [TaskEvent.progressLog (ib.1 + 1) (o.convert body).length,
         TaskEvent.uploadedBlock ib.2])).flatten) := by
  have hloop := upload_blocks_loop_ok o (o.convert body).length (o.convert body) h 0
  simpa [upload_phase, List.enum] using hloop

/-- Witness for C8 (amended) on the one-block oracle. -/
theorem c8_amended_upload_order_witness :
    upload_phase oracleOneBlock bodyW =
      (Except.ok (), ((oracleOneBlock.convert bodyW).enum.map (fun ib =>
        [TaskEvent.progressLog (ib.1 + 1) (oracleOneBlock.convert bodyW).length,
         TaskEvent.uploadedBlock ib.2])).flatten) :=
  c8_amended_upload_order oracleOneBlock bodyW (fun _ _ => rfl)

/-! ### Claim C9 — empty body uploads nothing -/

/-- C9: when the converter yields no blocks (empty markdown body) and the
per-property failures, if any, are of the caught classes, the upload phase
uploads zero blocks, the task completes without error, and no upload-phase
event — in particular no progress log, the only place the code divides by the
block count — ever occurs in the trace. -/
theorem c9_empty_body_no_uploads (o : TaskOracle) (page : Row) (body : JsonVal)
    (properties : List NotionPageProperty)
    (hempty : o.convert body = [])
    (hprops : ∀ p ∈ properties, ∀ e, o.setProp p.name p.value = some e →
      caughtByPropClause e.kind = true) :
    upload_phase o body = (Except.ok (), []) ∧
    (notion_set_page_content o page body properties).1 = Except.ok () ∧
    (notion_set_page_content o page body properties).2.filter TaskEvent.isUploadPhase = [] := by
  have hup : upload_phase o body = (Except.ok (), []) := by
    simp [upload_phase, hempty, upload_blocks_loop]
  obtain ⟨h1, _⟩ := set_properties_loop_all_caught o properties hprops
  have hnil : (set_properties_loop o properties).2.filter TaskEvent.isUploadPhase = [] := by
    rw [List.filter_eq_nil_iff]
    intro ev hev
    have hpp := List.all_eq_true.mp (set_properties_loop_events_prop_phase o properties) ev hev
    simp [prop_phase_not_upload ev hpp]
  refine ⟨hup, ?_, ?_⟩
  · simp [notion_set_page_content, h1, hup]
  · simp [notion_set_page_content, h1, hup, List.filter_cons, List.filter_append, hnil,
      TaskEvent.isUploadPhase]

/-- Witness for C9: with the empty-converter oracle and no properties, the
task completes without error and the trace has no upload-phase event. -/
theorem c9_empty_body_no_uploads_witness :
    upload_phase oracleNoBlocks bodyW = (Except.ok (), []) ∧
    (notion_set_page_content oracleNoBlocks pageW bodyW []).1 = Except.ok () ∧
    (notion_set_page_content oracleNoBlocks pageW bodyW []).2.filter
      TaskEvent.isUploadPhase = [] :=
  c9_empty_body_no_uploads oracleNoBlocks pageW bodyW [] rfl
    (by intro p hp; exact absurd hp (List.not_mem_nil p))

/-! ### Claim C3 — bad secret: failure response, no store interaction -/

/-- C3: for every request whose `secret` query parameter is missing or does
not match the configured secret, the handler fails with an `AppException`
whose serialized body has `status = "failure"`, and its event trace is empty:
no login is attempted and no row is created, so the external store is
untouched. -/
theorem c3_bad_secret_no_store_interaction (env : Env) (store : Store) (req : Request)
    (s : String) (hcs : env.secret = some s)
    (hbad : req.argsSecret = none ∨ ∃ r, req.argsSecret = some r ∧ r ≠ s) :
    ∃ e, add_db_row_handler env store req = (Except.error (HandlerError.appExc e), []) ∧
      dget (handle_app_exception e).body "status" = some (JsonVal.str "failure") := by
  have hstatus : ∀ e : AppException,
      dget (handle_app_exception e).body "status" = some (JsonVal.str "failure") := by
    intro e
    unfold handle_app_exception response_json AppException.to_dict
    rw [dget_dictSet_ne _ _ _ _ (by decide), dget_dictSet_self]
  rcases hbad with hnone | ⟨r, hr, hne⟩
  · refine ⟨AppException.init ("Auth Failure: Please include app password using the " ++
      "`?secret=XXX` url query parameter.") none none, ?_, hstatus _⟩
    simp [add_db_row_handler, check_secret, hcs, hnone]
  · refine ⟨AppException.init ("Auth Failure: The submitted secret query parameter `" ++ r ++
      "` does not match the configured secret.") none none, ?_, hstatus _⟩
    simp [add_db_row_handler, check_secret, hcs, hr, hne]

/-- Witness for C3: a wrong concrete secret produces the empty event trace
and a `status = "failure"` body. -/
theorem c3_bad_secret_no_store_interaction_witness :
    ∃ e, add_db_row_handler ⟨some "hunter2", some "t0ken"⟩ storeOk
        ⟨some "wrong", Except.error ()⟩ = (Except.error (HandlerError.appExc e), []) ∧
      dget (handle_app_exception e).body "status" = some (JsonVal.str "failure") :=
  c3_bad_secret_no_store_interaction ⟨some "hunter2", some "t0ken"⟩ storeOk
    ⟨some "wrong", Except.error ()⟩ "hunter2" rfl (Or.inr ⟨"wrong", rfl, by decide⟩)

/-! ### Claim C1 — success response of the synchronous phase -/

/-- C1: whenever validation, login and row creation succeed, the handler
returns the 200 JSON response with `status = "background_processing"` and
`new_row_url` equal to the new row's browseable URL, and the body carries an
`errors` key exactly when the synchronous parsing phase produced at least one
soft error — the response is built from the synchronous data alone (the
background task is only scheduled, its outcome never reaches the body). -/
theorem c1_success_response (env : Env) (store : Store) (req : Request)
    (db_url body : JsonVal) (properties : List NotionPageProperty) (errors : List String)
    (tok : String) (col : Collection)
    (h1 : check_secret env.secret req.argsSecret = Except.ok ())
    (h2 : parse_add_db_row_request req = Except.ok (db_url, body, properties, errors))
    (h3 : env.token = some tok)
    (h4 : store.login tok = Except.ok ())
    (h5 : store.getCollection db_url = Except.ok col) :
    ∃ resp, add_db_row_handler env store req =
        (Except.ok resp, [HandlerEvent.login, HandlerEvent.createRow,
          HandlerEvent.scheduleTask body properties]) ∧
      resp.status = 200 ∧
      dget resp.body "status" = some (JsonVal.str "background_processing") ∧
      dget resp.body "new_row_url" = some (JsonVal.str col.newRow.browseableUrl) ∧
      (dget resp.body "errors" = none ↔ errors = []) ∧
      (errors ≠ [] → dget resp.body "errors" =
        some (JsonVal.arr (errors.map JsonVal.str))) := by
  have hlogin : notion_login env store = (Except.ok (), [HandlerEvent.login]) := by
    simp [notion_login, h3, h4]
  have hrow : notion_add_db_row store db_url =
      (Except.ok col.newRow, [HandlerEvent.createRow]) := by
    simp [notion_add_db_row, h5]
  by_cases he : errors.length > 0
  · have hne := List.length_pos.mp he
    have hrun : add_db_row_handler env store req =
        (Except.ok (response_json [("status", JsonVal.str "background_processing"),
          ("new_row_url", JsonVal.str col.newRow.browseableUrl),
          ("errors", JsonVal.arr (errors.map JsonVal.str))]),
         [HandlerEvent.login, HandlerEvent.createRow,
          HandlerEvent.scheduleTask body properties]) := by
      simp [add_db_row_handler, h1, h2, hlogin, hrow, he]
    refine ⟨_, hrun, rfl, rfl, rfl, ?_, fun _ => rfl⟩
    simp [response_json, dget, hne]
  · have hnil : errors = [] := List.eq_nil_of_length_eq_zero (Nat.eq_zero_of_not_pos he)
    subst hnil
    have hrun : add_db_row_handler env store req =
        (Except.ok (response_json [("status", JsonVal.str "background_processing"),
          ("new_row_url", JsonVal.str col.newRow.browseableUrl)]),
         [HandlerEvent.login, HandlerEvent.createRow,
          HandlerEvent.scheduleTask body properties]) := by
      simp [add_db_row_handler, h1, h2, hlogin, hrow]
    exact ⟨_, hrun, rfl, rfl, rfl, ⟨fun _ => rfl, fun _ => rfl⟩, fun hx => absurd rfl hx⟩

/-- Witness for C1 on a fully successful concrete request (no soft errors). -/
theorem c1_success_response_witness :
    ∃ resp, add_db_row_handler envOk storeOk reqOk =
        (Except.ok resp, [HandlerEvent.login, HandlerEvent.createRow,
          HandlerEvent.scheduleTask (JsonVal.str "") []]) ∧
      resp.status = 200 ∧
      dget resp.body "status" = some (JsonVal.str "background_processing") ∧
      dget resp.body "new_row_url" = some (JsonVal.str "https://www.notion.so/r0w") ∧
      (dget resp.body "errors" = none ↔ ([] : List String) = []) ∧
      (([] : List String) ≠ [] → dget resp.body "errors" =
        some (JsonVal.arr (([] : List String).map JsonVal.str))) :=
  c1_success_response envOk storeOk reqOk (JsonVal.str "https://www.notion.so/db")
    (JsonVal.str "") [] [] "t0ken" ⟨⟨"https://www.notion.so/r0w"⟩⟩ rfl rfl rfl rfl rfl

/-! ### Claim C7 — error taxonomy and uniform serialization -/

/-- C7 counterexample: an unresolvable target collection is a synchronous
fatal error that is NOT raised as the structured `AppException`:
`notion_add_db_row` wraps nothing, so the client's exception propagates
uncaught (Sanic's generic 500, not the `{status: failure}` body). -/
theorem c7_uncaught_collection_error :
    (add_db_row_handler envOk storeNoCollection reqOk).1 =
      Except.error (HandlerError.uncaught "Invalid collection view URL") ∧
    HandlerError.isApp (HandlerError.uncaught "Invalid collection view URL") = false :=
  ⟨rfl, rfl⟩

/-- C7 (amended): every synchronous fatal error that app.py itself raises
(missing configuration, authentication failure, non-JSON body, missing
required field, login transport failure) is the single structured
`AppException` carrying message and status code, serialized uniformly by the
boundary handler as a body with `status = "failure"` and `error = message`,
with HTTP status defaulting to 400 and overridable per error; an
unresolvable target collection, by contrast, propagates as an uncaught
external-client exception (see the counterexample). The login case is stated
explicitly: every failure of `notion_login` is an `AppException`. -/
theorem c7_app_exception_serialization :
    (∀ m p, (AppException.init m none p).status_code = 400) ∧
    (∀ m c p, (AppException.init m (some c) p).status_code = c) ∧
    (∀ e, (handle_app_exception e).status = e.status_code) ∧
    (∀ e, dget (handle_app_exception e).body "status" = some (JsonVal.str "failure") ∧
      dget (handle_app_exception e).body "error" = some (JsonVal.str e.message)) ∧
    (∀ env store e, (notion_login env store).1 = Except.error e → e.isApp = true) := by
  refine ⟨fun m p => rfl, fun m c p => rfl, fun e => rfl, ?_, ?_⟩
  · intro e
    constructor
    · unfold handle_app_exception response_json AppException.to_dict
      rw [dget_dictSet_ne _ _ _ _ (by decide), dget_dictSet_self]
    · unfold handle_app_exception response_json AppException.to_dict
      rw [dget_dictSet_self]
  · intro env store e h
    cases htok : env.token with
    | none =>
      simp [notion_login, htok] at h
      rw [← h]
      rfl
    | some tok =>
      cases hlog : store.login tok with
      | error msg =>
        simp [notion_login, htok, hlog] at h
        rw [← h]
        rfl
      | ok u =>
        cases u
        simp [notion_login, htok, hlog] at h

/-- Witness for C7 (amended): a missing `TOKEN` makes `notion_login` fail
with the structured exception. -/
theorem c7_app_exception_serialization_witness :
    HandlerError.isApp (HandlerError.appExc (AppException.init
      ("Could not login to notion: Token was not set " ++
        "in environment variable `TOKEN`") none none)) = true :=
  c7_app_exception_serialization.2.2.2.2 ⟨some "hunter2", none⟩ storeOk
    (HandlerError.appExc (AppException.init
      ("Could not login to notion: Token was not set " ++
        "in environment variable `TOKEN`") none none)) rfl
